import Mathlib

/-!
Verification development for the `ticketing.tools.zammad_client` module of
the Ticketing-Agent repository.

The Python module is a defensive adapter around a remote ticketing backend
(`zammad_py`).  We shallowly embed it: every backend call becomes an oracle
field of a `Client` structure returning `Except PyErr _` (an exception or a
value), Python dictionaries/JSON payloads become the inductive `Json` type,
and each adapter function of `zammad_client.py` becomes a Lean function over
those oracles, mirroring the source's control flow (try/except becomes a
match on `Except`, `hasattr` probes become Boolean fields).  Functions whose
behaviour the spec describes through the backend calls they make additionally
return a `List CallEvent` trace recording which backend endpoints were hit
and with which parameters.
-/

/-- Model of a Python/JSON value as passed around by the adapter.
Python `None` is `Json.null`; backend records are `Json.obj` association
lists (insertion ordered, like Python dicts). -/
inductive Json where
  | null : Json
  | bool (b : Bool) : Json
  | int (n : Int) : Json
  | str (s : String) : Json
  | arr (l : List Json) : Json
  | obj (m : List (String × Json)) : Json

/-- Python truthiness (`if x:`) of a value: `None`, `False`, `0`, `""`,
`[]`, `{}` are falsy, everything else truthy. -/
def jsonTruthy : Json → Bool
  | .null => false
  | .bool b => b
  | .int n => n != 0
  | .str s => s != ""
  | .arr l => !l.isEmpty
  | .obj m => !m.isEmpty

mutual

/-- Structural equality of `Json` values, modelling Python `==` on
JSON-shaped data (used for dict-key comparison). -/
def Json.beq : Json → Json → Bool
  | .null, .null => true
  | .bool a, .bool b => a == b
  | .int a, .int b => a == b
  | .str a, .str b => a == b
  | .arr a, .arr b => Json.beqList a b
  | .obj a, .obj b => Json.beqObj a b
  | _, _ => false

def Json.beqList : List Json → List Json → Bool
  | [], [] => true
  | x :: xs, y :: ys => Json.beq x y && Json.beqList xs ys
  | _, _ => false

def Json.beqObj : List (String × Json) → List (String × Json) → Bool
  | [], [] => true
  | (ka, va) :: xs, (kb, vb) :: ys => ka == kb && Json.beq va vb && Json.beqObj xs ys
  | _, _ => false

end

/-- `d.get(k)` on a Python dict: `some v` when the key is present (even if
its value is `null`), `none` when absent. -/
def objGet (m : List (String × Json)) (k : String) : Option Json :=
  (m.find? (fun kv => kv.1 == k)).map (fun kv => kv.2)

/-- `d.get(k, default)`: the stored value when the key is present (even a
stored `None`), the default only when the key is absent. -/
def objGetD (m : List (String × Json)) (k : String) (d : Json) : Json :=
  match objGet m k with
  | some v => v
  | none => d

/-- `d[k] = v` on a Python dict: overwrite in place when the key exists
(keeping its position), append otherwise. -/
def objUpsert (m : List (String × Json)) (k : String) (v : Json) : List (String × Json) :=
  if (m.find? (fun kv => kv.1 == k)).isSome then
    m.map (fun kv => if kv.1 == k then (k, v) else kv)
  else
    m ++ [(k, v)]

/-- `base.update(extra)` on Python dicts (insertion-order semantics). -/
def objUpdate (base : List (String × Json)) (extra : List (String × Json)) :
    List (String × Json) :=
  extra.foldl (fun acc kv => objUpsert acc kv.1 kv.2) base

/-- `m[key] = v` where the key is an arbitrary (JSON-shaped) Python value,
as used for the article-id-keyed attachments map. -/
def mapUpsert (m : List (Json × Json)) (k : Json) (v : Json) : List (Json × Json) :=
  if (m.find? (fun kv => Json.beq kv.1 k)).isSome then
    m.map (fun kv => if Json.beq kv.1 k then (k, v) else kv)
  else
    m ++ [(k, v)]

/-- ASCII lowercasing of a character, modelling Python `str.lower()` on the
ASCII range (the adapter compares backend priority names, which are ASCII). -/
def charLower (c : Char) : Char :=
  if 65 ≤ c.toNat ∧ c.toNat ≤ 90 then Char.ofNat (c.toNat + 32) else c

/-- `s.lower()` (ASCII model). -/
def strLower (s : String) : String :=
  String.mk (s.data.map charLower)

mutual

/-- Python `str(v)` for a JSON-shaped value: `None`/`True`/`False`, decimal
integers, the string itself, container reprs (string elements repr-quoted,
without escape processing, which the adapter's data never needs). -/
def pyStr : Json → String
  | .null => "None"
  | .bool true => "True"
  | .bool false => "False"
  | .int n => toString n
  | .str s => s
  | .arr l => "[" ++ pyStrList l ++ "]"
  | .obj m => "\x7b" ++ pyStrObj m ++ "\x7d"

/-- Python `repr(v)` (as appearing for elements inside container `str`). -/
def pyRepr : Json → String
  | .str s => "\x27" ++ s ++ "\x27"
  | .null => "None"
  | .bool true => "True"
  | .bool false => "False"
  | .int n => toString n
  | .arr l => "[" ++ pyStrList l ++ "]"
  | .obj m => "\x7b" ++ pyStrObj m ++ "\x7d"

def pyStrList : List Json → String
  | [] => ""
  | [x] => pyRepr x
  | x :: xs => pyRepr x ++ ", " ++ pyStrList xs

def pyStrObj : List (String × Json) → String
  | [] => ""
  | [(k, v)] => "\x27" ++ k ++ "\x27: " ++ pyRepr v
  | (k, v) :: xs => "\x27" ++ k ++ "\x27: " ++ pyRepr v ++ ", " ++ pyStrObj xs

end

/-- Model of a Python exception as raised/caught by the adapter.  `TypeError`
is distinguished because several fallbacks catch exactly it; `ValueError`
(the spec's ValidationError), `EnvironmentError` (ConfigurationError) and
`RuntimeError` (BackendError) are the typed failures the adapter raises
itself; `other` stands for any further backend exception. -/
inductive PyErr where
  | typeError (msg : String) : PyErr
  | validationError (msg : String) : PyErr
  | configError (msg : String) : PyErr
  | backendError (msg : String) : PyErr
  | other (msg : String) : PyErr

/-- Python `str(exception)`: its message. -/
def errMsg : PyErr → String
  | .typeError m => m
  | .validationError m => m
  | .configError m => m
  | .backendError m => m
  | .other m => m

/-- `f"... {last_error}"` where `last_error` is `None` or an exception. -/
def optErrStr : Option PyErr → String
  | none => "None"
  | some e => errMsg e

/-! ## Pagination model (`_collect_pages`, lines 41–61)

A page object returned by the backend is either a non-iterable single object
(for which `items.extend(page)` raises `TypeError` and the code appends the
object itself) or an iterable page of items.  It may or may not expose a
callable `next_page` attribute.  A paginated result is the first page
together with the (finite) chain of pages successive `next_page()` calls
would deliver; exhausting the chain models `next_page()` returning `None`
(a falsy terminator).  Finiteness of the chain is exactly the spec's
assumption that the next-page capability eventually returns a falsy result. -/

/-- Content of one page: a single non-iterable object or an iterable batch. -/
inductive PContent where
  | single (a : Json) : PContent
  | multi (l : List Json) : PContent

/-- One backend page: its content plus whether it has a callable
`next_page` attribute. -/
structure PPage where
  content : PContent
  hasNext : Bool

/-- The items `items.extend(page)` / `items.append(page)` contributes. -/
def pageItems : PPage → List Json
  | ⟨.single a, _⟩ => [a]
  | ⟨.multi l, _⟩ => l

/-- Python truthiness of the page object itself. -/
def pageTruthy : PPage → Bool
  | ⟨.single a, _⟩ => jsonTruthy a
  | ⟨.multi l, _⟩ => !l.isEmpty

/-- A paginated backend result: the value of the first call (`none` models
a falsy `None` first page) and the successive `next_page()` results. -/
structure PageSeq where
  first : Option PPage
  rest : List PPage

/-- Truthiness of the object a pagination call returned. -/
def seqTruthy (ps : PageSeq) : Bool :=
  match ps.first with
  | none => false
  | some p => pageTruthy p

/-- The `while` loop of `_collect_pages` (lines 52–59): as long as the
current page has a `next_page` capability, fetch the next page; stop on a
falsy result, else collect its items and continue. -/
def collectAfter : PPage → List PPage → List Json
  | p, rest =>
    if p.hasNext then
      match rest with
      | [] => []
      | q :: rest' => if pageTruthy q then pageItems q ++ collectAfter q rest' else []
    else []

/-- `_collect_pages(first_page)` (lines 41–61): empty on a falsy first page,
else the first page's items followed by the drained chain. -/
def collect_pages (ps : PageSeq) : List Json :=
  match ps.first with
  | none => []
  | some p => if pageTruthy p then pageItems p ++ collectAfter p ps.rest else []

/-- Number of `next_page()` invocations the loop performs. -/
def nextFetchesAfter : PPage → List PPage → Nat
  | p, rest =>
    if p.hasNext then
      match rest with
      | [] => 1
      | q :: rest' => if pageTruthy q then 1 + nextFetchesAfter q rest' else 1
    else 0

/-- Total page fetches observed for one collection: the caller's initial
fetch plus every `next_page()` call made by `_collect_pages`. -/
def pageFetches (ps : PageSeq) : Nat :=
  1 + (match ps.first with
       | none => 0
       | some p => if pageTruthy p then nextFetchesAfter p ps.rest else 0)

/-! ## Base64 model (for `download_attachment`'s `base64.b64decode`)

CPython's lenient `b64decode` (validate=False) discards bytes outside the
base64 alphabet before the padding check, requires the remaining length to
be a multiple of four with at most two trailing `=` padding characters, and
decodes four 6-bit characters to three bytes (two/three characters plus
padding to one/two bytes). -/

/-- 6-bit value of a base64 alphabet byte, `none` outside the alphabet. -/
def b64Val (c : Nat) : Option Nat :=
  if 65 ≤ c ∧ c ≤ 90 then some (c - 65)
  else if 97 ≤ c ∧ c ≤ 122 then some (c - 71)
  else if 48 ≤ c ∧ c ≤ 57 then some (c + 4)
  else if c = 43 then some 62
  else if c = 47 then some 63
  else none

/-- Decode a run of 6-bit values: full quanta of four give three bytes, a
final quantum of three gives two bytes, of two gives one byte; a leftover of
one data character is invalid. -/
def b64Groups : List Nat → Option (List Nat)
  | [] => some []
  | a :: b :: c :: d :: rest =>
    match b64Groups rest with
    | some bytes => some ([a * 4 + b / 16, (b % 16) * 16 + c / 4, (c % 4) * 64 + d] ++ bytes)
    | none => none
  | [a, b] => some [a * 4 + b / 16]
  | [a, b, c] => some [a * 4 + b / 16, (b % 16) * 16 + c / 4]
  | [_] => none

/-- Lenient `base64.b64decode` over raw bytes: `none` models the decode
raising (`binascii.Error` on bad padding). -/
def b64decodeBytes (input : List Nat) : Option (List Nat) :=
  let kept := input.filter (fun c => (b64Val c).isSome || c = 61)
  let dataChars := kept.takeWhile (fun c => c ≠ 61)
  let padChars := kept.drop dataChars.length
  if !padChars.all (fun c => c = 61) then none
  else if padChars.length > 2 then none
  else if (dataChars.length + padChars.length) % 4 ≠ 0 then none
  else
    match dataChars.mapM b64Val with
    | some vals => b64Groups vals
    | none => none

/-- `base64.b64decode` applied to a `str`: CPython first ASCII-encodes the
string (raising, i.e. `none`, on non-ASCII codepoints). -/
def b64decodeStr (s : String) : Option (List Nat) :=
  if s.data.all (fun c => c.toNat < 128) then b64decodeBytes (s.data.map Char.toNat)
  else none

/-! ## The backend client model

One oracle field per backend endpoint the adapter touches.  Each oracle
returns `Except PyErr _`: `.error` models the underlying call raising.
`ticket_article.all()` is indexed by an invocation counter because
`get_ticket_details` may legitimately call it several times with different
outcomes (the fetch-all path and then the ticket-scoped fallback, which
itself retries once on `TypeError`).  The Boolean fields model the
`hasattr` probes the source performs. -/

structure Client where
  hasTicketArticle : Bool
  hasTicket : Bool
  hasAttachmentEndpoint : Bool
  ticketFind : Int → Except PyErr Json
  articleAll : Nat → Except PyErr PageSeq
  ticketUpdateKw : Int → Json → Except PyErr Json
  ticketUpdatePos : Int → Json → Except PyErr Json
  priorityAll : Except PyErr PageSeq
  articleFindScoped : Int → Json → Except PyErr Json
  articleFindById : Json → Except PyErr Json
  attachmentAllKw : Int → Json → Except PyErr PageSeq
  attachmentAllPos : Int → Json → Except PyErr PageSeq
  articleCreateKwParams : Json → Except PyErr Json
  articleCreatePosDict : Json → Except PyErr Json
  articleCreateTidDict : Int → Json → Except PyErr Json
  articleCreateKwExpanded : Json → Except PyErr Json

/-- Backend calls an operation may perform, recorded as a trace. -/
inductive CallEvent where
  | priorityAll : CallEvent
  | ticketUpdateKw (tid : Int) (params : Json) : CallEvent
  | ticketUpdatePos (tid : Int) (params : Json) : CallEvent
  | articleFindScoped (tid : Int) (aid : Json) : CallEvent
  | attachmentAllKw (tid : Int) (aid : Json) : CallEvent
  | attachmentAllPos (tid : Int) (aid : Json) : CallEvent
  | articleFindById (aid : Json) : CallEvent

/-- Whether an event is the priority-listing endpoint being invoked. -/
def isPriorityAllEvent : CallEvent → Bool
  | .priorityAll => true
  | _ => false

/-- Whether an event belongs to the dedicated attachment-listing endpoint or
the by-id article lookup (the discovery strategies after the first). -/
def isLaterStrategyEvent : CallEvent → Bool
  | .attachmentAllKw _ _ => true
  | .attachmentAllPos _ _ => true
  | .articleFindById _ => true
  | _ => false

/-! ## Connection factory (`init_zammad_client`, lines 25–39) -/

/-- The constructed `ZammadAPI` connection object. -/
structure ZammadAPI where
  url : String
  username : Option String
  password : Option String

/-- `url_base.rstrip("/")`: strip every trailing slash. -/
def rstripSlash (s : String) : String :=
  String.mk (s.data.reverse.dropWhile (fun c => c = '/')).reverse

/-- `init_zammad_client()` (lines 25–39): reads `zammad_url`,
`zammad_username`, `zammad_password` from the environment (modelled as a
partial map); `if not url_base` raises `EnvironmentError` — this fires both
when the variable is unset (`none`) and when it is set to the empty string;
otherwise the connection URL is the base with trailing slashes stripped plus
`/api/v1/`. -/
def init_zammad_client (env : String → Option String) : Except PyErr ZammadAPI :=
  match env "zammad_url" with
  | none => .error (.configError "Environment variable `zammad_url` is not set")
  | some u =>
    if u = "" then .error (.configError "Environment variable `zammad_url` is not set")
    else .ok { url := rstripSlash u ++ "/api/v1/"
             , username := env "zammad_username"
             , password := env "zammad_password" }

/-! ## Ticket read operations (lines 63–141) -/

/-- `get_ticket(ticket_id)` (lines 72–75): direct single-record fetch. -/
def get_ticket (c : Client) (tid : Int) : Except PyErr Json :=
  c.ticketFind tid

/-- `get_all_articles()` (lines 90–94): fetch the first article page (the
`k`-th invocation of `ticket_article.all()`) and drain it. -/
def get_all_articles_at (c : Client) (k : Nat) : Except PyErr (List Json) :=
  match c.articleAll k with
  | .error e => .error e
  | .ok ps => .ok (collect_pages ps)

/-- Python `a.get("ticket_id") == ticket_id` where `a.get` raises
`AttributeError` on a non-mapping; `==` against an int is also true for a
Python bool of the same numeric value. -/
def pyEqInt (v : Json) (n : Int) : Bool :=
  match v with
  | .int m => m == n
  | .bool b => (if b then (1 : Int) else 0) == n
  | _ => false

/-- The list comprehension `[a for a in all_articles if a.get("ticket_id") ==
ticket_id]` (lines 88 and 123): raises (`.error`) at the first non-mapping
element, else keeps the articles whose `ticket_id` equals the requested id. -/
def filterByTicketId : List Json → Int → Except PyErr (List Json)
  | [], _ => .ok []
  | a :: rest, tid =>
    match a with
    | .obj m =>
      match filterByTicketId rest tid with
      | .error e => .error e
      | .ok l =>
        if pyEqInt (objGetD m "ticket_id" Json.null) tid then .ok (Json.obj m :: l)
        else .ok l
    | _ => .error (.other "AttributeError: object has no attribute get")

/-- `get_ticket_articles(ticket_id)` (lines 77–88), starting at invocation
`k` of `ticket_article.all()`: the call is retried once (same call) if it
raises `TypeError`; the collected articles are filtered by `ticket_id`. -/
def get_ticket_articles_at (c : Client) (k : Nat) (tid : Int) : Except PyErr (List Json) :=
  let pageRes :=
    match c.articleAll k with
    | .error (.typeError _) => c.articleAll (k + 1)
    | r => r
  match pageRes with
  | .error e => .error e
  | .ok ps => filterByTicketId (collect_pages ps) tid

/-! ## Ticket write operations (lines 143–194) -/

/-- The `client.ticket.update(id=..., params=...)` call with its
`except TypeError:` positional fallback (lines 159–163 and 191–194),
returning the result together with the trace of update calls issued. -/
def ticket_update (c : Client) (tid : Int) (params : Json) :
    Except PyErr Json × List CallEvent :=
  match c.ticketUpdateKw tid params with
  | .ok r => (.ok r, [.ticketUpdateKw tid params])
  | .error (.typeError _) =>
    (c.ticketUpdatePos tid params, [.ticketUpdateKw tid params, .ticketUpdatePos tid params])
  | .error e => (.error e, [.ticketUpdateKw tid params])

/-- `set_ticket_state(ticket_id, state, state_id)` (lines 143–163): build
params (`state_id` first if given, then `state`), raise `ValueError` when
both are absent, else update the ticket. -/
def set_ticket_state (c : Client) (tid : Int) (state : Option String)
    (stateId : Option Int) : Except PyErr Json × List CallEvent :=
  let params : List (String × Json) :=
    (match stateId with
     | some n => [("state_id", Json.int n)]
     | none => [])
    ++ (match state with
        | some s => [("state", Json.str s)]
        | none => [])
  if params.isEmpty then
    (.error (.validationError "Either state or state_id must be provided"), [])
  else
    ticket_update c tid (Json.obj params)

/-- The `for p in priorities:` loop of `set_ticket_priority` (lines
180–183): first priority whose `name` matches case-insensitively wins and
its `id` field (Python `None`, i.e. `Json.null`, when missing) is taken;
a non-mapping element reached before a match makes `p.get` raise. -/
def resolveLoop : List Json → String → Except PyErr Json
  | [], _ => .ok Json.null
  | p :: rest, nm =>
    match p with
    | .obj m =>
      if strLower (pyStr (objGetD m "name" (Json.str ""))) == strLower nm then
        .ok (objGetD m "id" Json.null)
      else resolveLoop rest nm
    | _ => .error (.other "AttributeError: object has no attribute get")

/-- The name-resolution block of `set_ticket_priority` (lines 176–185):
list all priorities (via `_collect_pages`), scan for a case-insensitive
name match; any exception in the block is swallowed, leaving
`priority_id = None` (`Json.null`). -/
def resolve_priority_id (c : Client) (nm : String) : Json :=
  match c.priorityAll with
  | .error _ => Json.null
  | .ok ps =>
    match resolveLoop (collect_pages ps) nm with
    | .error _ => Json.null
    | .ok v => v

/-- `set_ticket_priority(ticket_id, priority_id, priority_name)` (lines
165–194).  The running `priority_id` variable is modelled as a `Json` value
with `Json.null` standing for Python `None`. -/
def set_ticket_priority (c : Client) (tid : Int) (priorityId : Option Int)
    (priorityName : Option String) : Except PyErr Json × List CallEvent :=
  if priorityId.isNone ∧ priorityName.isNone then
    (.error (.validationError "Either priority_id or priority_name must be provided"), [])
  else
    let pid0 : Json := match priorityId with
      | some n => Json.int n
      | none => Json.null
    let resolved : Json × List CallEvent :=
      match priorityId, priorityName with
      | none, some nm => (resolve_priority_id c nm, [.priorityAll])
      | _, _ => (pid0, [])
    match resolved with
    | (Json.null, tr) =>
      (.error (.validationError
        "Could not resolve priority id; provide a valid priority_id or priority_name"), tr)
    | (pid, tr) =>
      let params := Json.obj [("priority_id", pid)]
      let upd := ticket_update c tid params
      (upd.1, tr ++ upd.2)

/-! ## Attachment discovery (`list_article_attachments`, lines 197–254) -/

/-- Discovery strategy 1 (lines 205–214): fetch the article scoped by
ticket and article id; if the call raises nothing is yielded; if the result
is truthy, is a mapping, and carries a truthy `attachments` value, that
value is returned verbatim. -/
def discoverEmbedded (c : Client) (tid : Int) (aid : Json) :
    Option Json × List CallEvent :=
  match c.articleFindScoped tid aid with
  | .error _ => (none, [.articleFindScoped tid aid])
  | .ok art =>
    if jsonTruthy art then
      match art with
      | .obj m =>
        match objGet m "attachments" with
        | some att =>
          if jsonTruthy att then (some att, [.articleFindScoped tid aid])
          else (none, [.articleFindScoped tid aid])
        | none => (none, [.articleFindScoped tid aid])
      | _ => (none, [.articleFindScoped tid aid])
    else (none, [.articleFindScoped tid aid])

/-- Discovery strategy 2 (lines 216–234): when the client exposes the
dedicated `ticket_article_attachment` endpoint, call it with keyword
arguments; on `TypeError` retry positionally (any error there leaves
`page = None`); a keyword-call error other than `TypeError` escapes to the
enclosing handler and yields nothing.  A truthy page is drained and the
collected list returned. -/
def discoverEndpoint (c : Client) (tid : Int) (aid : Json) :
    Option Json × List CallEvent :=
  if c.hasAttachmentEndpoint then
    match c.attachmentAllKw tid aid with
    | .ok ps =>
      if seqTruthy ps then (some (Json.arr (collect_pages ps)), [.attachmentAllKw tid aid])
      else (none, [.attachmentAllKw tid aid])
    | .error (.typeError _) =>
      match c.attachmentAllPos tid aid with
      | .ok ps =>
        if seqTruthy ps then
          (some (Json.arr (collect_pages ps)), [.attachmentAllKw tid aid, .attachmentAllPos tid aid])
        else (none, [.attachmentAllKw tid aid, .attachmentAllPos tid aid])
      | .error _ => (none, [.attachmentAllKw tid aid, .attachmentAllPos tid aid])
    | .error _ => (none, [.attachmentAllKw tid aid])
  else (none, [])

/-- Normalization of one legacy attachment reference (lines 245–249): a
mapping is kept as-is, any other value becomes
`{id: value, filename: "attachment_<value>"}`. -/
def normAttachmentRef (v : Json) : Json :=
  match v with
  | .obj m => Json.obj m
  | _ => Json.obj [("id", v), ("filename", Json.str ("attachment_" ++ pyStr v))]

/-- The `for key in (...)` scan of strategy 3 (lines 240–250): first key
present with a truthy value that is a list wins; a truthy non-list value
falls through to the next key (the `return` is guarded by `isinstance(vals,
list)`). -/
def legacyKeyScan (m : List (String × Json)) : List String → Option Json
  | [] => none
  | k :: rest =>
    match objGet m k with
    | some v =>
      if jsonTruthy v then
        match v with
        | .arr l => some (Json.arr (l.map normAttachmentRef))
        | _ => legacyKeyScan m rest
      else legacyKeyScan m rest
    | none => legacyKeyScan m rest

/-- Discovery strategy 3 (lines 236–252): fetch the article by id alone and
scan it for the legacy fields `attachment_ids`, `attachments_ids`,
`attachments`. -/
def discoverLegacy (c : Client) (aid : Json) : Option Json × List CallEvent :=
  match c.articleFindById aid with
  | .error _ => (none, [.articleFindById aid])
  | .ok art2 =>
    match art2 with
    | .obj m => (legacyKeyScan m ["attachment_ids", "attachments_ids", "attachments"],
                 [.articleFindById aid])
    | _ => (none, [.articleFindById aid])

/-- `list_article_attachments(ticket_id, article_id)` (lines 197–254): the
three strategies in order, first yield wins, otherwise an empty list; every
raise-site is inside a `try/except`, so the function always returns `.ok`. -/
def list_article_attachments (c : Client) (tid : Int) (aid : Json) :
    Except PyErr Json × List CallEvent :=
  match discoverEmbedded c tid aid with
  | (some v, tr) => (.ok v, tr)
  | (none, tr1) =>
    match discoverEndpoint c tid aid with
    | (some v, tr2) => (.ok v, tr1 ++ tr2)
    | (none, tr2) =>
      match discoverLegacy c aid with
      | (some v, tr3) => (.ok v, tr1 ++ tr2 ++ tr3)
      | (none, tr3) => (.ok (Json.arr []), tr1 ++ tr2 ++ tr3)

/-! ## Posting a message (`send_message_to_ticket`, lines 321–381) -/

/-- The params dict built in lines 346–354: `ticket_id`, `body`, `internal`
always; `subject`, `author_id`, `type` when given; then
`params.update(additional_params)` when the extra dict is truthy (an update
with an empty dict is skipped by the `if additional_params:` guard but
would change nothing anyway). -/
def msgParams (tid : Int) (message : String) (subject : Option String)
    (authorId : Option Int) (internal : Bool) (articleType : Option String)
    (additional : Option (List (String × Json))) : Json :=
  let base : List (String × Json) :=
    [("ticket_id", Json.int tid), ("body", Json.str message), ("internal", Json.bool internal)]
  let base := base ++ (match subject with
    | some s => [("subject", Json.str s)]
    | none => [])
  let base := base ++ (match authorId with
    | some n => [("author_id", Json.int n)]
    | none => [])
  let base := base ++ (match articleType with
    | some t => [("type", Json.str t)]
    | none => [])
  match additional with
  | some extra => if extra.isEmpty then Json.obj base else Json.obj (objUpdate base extra)
  | none => Json.obj base

/-- The ordered caller list of lines 358–367, with each closure replaced by
the outcome it would produce: the four `ticket_article.create` shapes when
the client has that endpoint, then the two `ticket.update` nested-article
shapes — which, via `getattr(client, "ticket", None) and ...`, evaluate to
`None` (a falsy success) when the client has no `ticket` attribute. -/
def msgCallers (c : Client) (tid : Int) (p : Json) : List (Except PyErr Json) :=
  (if c.hasTicketArticle then
    [c.articleCreateKwParams p, c.articleCreatePosDict p,
     c.articleCreateTidDict tid p, c.articleCreateKwExpanded p]
   else [])
  ++ [ (if c.hasTicket then c.ticketUpdateKw tid (Json.obj [("article", p)]) else .ok Json.null)
     , (if c.hasTicket then c.ticketUpdatePos tid (Json.obj [("article", p)]) else .ok Json.null) ]

/-- Whether one attempted call shape "fails": it raises, or it returns a
falsy response (both make the loop move on to the next candidate). -/
def attemptFails (o : Except PyErr Json) : Bool :=
  match o with
  | .error _ => true
  | .ok r => !jsonTruthy r

/-- The last underlying error after running a list of attempts starting
from a given `last_error` (only raising attempts update it; a falsy
success does not). -/
def lastErrorFrom : List (Except PyErr Json) → Option PyErr → Option PyErr
  | [], last => last
  | o :: rest, last =>
    match o with
    | .error e => lastErrorFrom rest (some e)
    | .ok _ => lastErrorFrom rest last

/-- The probing loop of lines 369–381: run the candidates in order; a raise
records `last_error` and continues, a falsy response continues, the first
truthy response is returned; exhaustion raises `RuntimeError` carrying the
last error.  Also returns how many candidates were invoked. -/
def probeCreate : List (Except PyErr Json) → Option PyErr → Except PyErr Json × Nat
  | [], last =>
    (.error (.backendError ("Could not create ticket article. Last error: " ++ optErrStr last)), 0)
  | o :: rest, last =>
    match o with
    | .ok r =>
      if jsonTruthy r then (.ok r, 1)
      else
        let step := probeCreate rest last
        (step.1, step.2 + 1)
    | .error e =>
      let step := probeCreate rest (some e)
      (step.1, step.2 + 1)

/-- `send_message_to_ticket(...)` (lines 321–381), returning the result and
the number of call shapes attempted. -/
def send_message_to_ticket (c : Client) (tid : Int) (message : String)
    (subject : Option String) (authorId : Option Int) (internal : Bool)
    (articleType : Option String) (additional : Option (List (String × Json))) :
    Except PyErr Json × Nat :=
  probeCreate (msgCallers c tid (msgParams tid message subject authorId internal articleType additional)) none

/-! ## Consolidated detail view (`get_ticket_details`, lines 108–141) -/

/-- The adapter-constructed detail view: `{"ticket": ..., "articles": ...,
"attachments": ...}` with the attachments map keyed by article id. -/
structure TicketDetail where
  ticket : Json
  articles : List Json
  attachments : List (Json × Json)

/-- The article-collection part of `get_ticket_details` (lines 120–129):
prefer fetch-all-then-filter (invocation 0 of `ticket_article.all()`); on
any exception fall back to the ticket-scoped fetch (invocations 1 and
possibly 2); on that also failing, an empty list. -/
def detailFirstTry (c : Client) (tid : Int) : Except PyErr (List Json) :=
  match get_all_articles_at c 0 with
  | .error e => .error e
  | .ok allA => filterByTicketId allA tid

/-- The `try/except` ladder around the article fetches (lines 120–129). -/
def detailArticles (c : Client) (tid : Int) : List Json :=
  match detailFirstTry c tid with
  | .ok l => l
  | .error _ =>
    match get_ticket_articles_at c 1 tid with
    | .ok l => l
    | .error _ => []

/-- `art.get("id")` for an article that went through the ticket-id filter
(hence is a mapping; the non-mapping branch is unreachable there). -/
def articleId (art : Json) : Json :=
  match art with
  | .obj m => objGetD m "id" Json.null
  | _ => Json.null

/-- The attachment-map loop of `get_ticket_details` (lines 131–139): for
every article, discovery is attempted and any exception degrades to an
empty list for that article only; entries are keyed by article id. -/
def detailAttachStep (c : Client) (tid : Int) (acc : List (Json × Json))
    (art : Json) : List (Json × Json) :=
  let aid := articleId art
  let atts : Json :=
    match (list_article_attachments c tid aid).1 with
    | .ok v => v
    | .error _ => Json.arr []
  mapUpsert acc aid atts

/-- The whole attachment-map loop: one `detailAttachStep` per article,
starting from the empty map. -/
def detailAttachments (c : Client) (tid : Int) (articles : List Json) :
    List (Json × Json) :=
  articles.foldl (detailAttachStep c tid) []

/-- `get_ticket_details(ticket_id, include_attachments)` (lines 108–141):
ticket-fetch failure becomes the `{"id": ..., "error": str(e)}` placeholder;
the view itself is always produced, never raised. -/
def get_ticket_details (c : Client) (tid : Int) (includeAttachments : Bool) :
    TicketDetail :=
  let ticket : Json :=
    match get_ticket c tid with
    | .ok t => t
    | .error e => Json.obj [("id", Json.int tid), ("error", Json.str (errMsg e))]
  let articles := detailArticles c tid
  { ticket := ticket
  , articles := articles
  , attachments := if includeAttachments then detailAttachments c tid articles else [] }

/-! ## Attachment download (`download_attachment`, lines 256–318)

A download response may be a raw byte buffer, a mapping (whose values may
themselves include raw byte buffers, as in the `{"data": ..., "file":
bytes}` shape the source inspects), a readable stream, or any other object.
`json.dumps` raises `TypeError` on a byte-buffer value, so serialization of
a mapping is partial. -/

/-- Four-digit lowercase hex, for `\u` escapes in `json.dumps` output
(codepoints are modelled within the basic multilingual plane). -/
def hex4 (n : Nat) : String :=
  let d := fun (k : Nat) =>
    if k < 10 then Char.ofNat (48 + k) else Char.ofNat (87 + k)
  String.mk [d (n / 4096 % 16), d (n / 256 % 16), d (n / 16 % 16), d (n % 16)]

/-- `json.dumps` escaping of one character (default `ensure_ascii=True`). -/
def jsonEscapeChar (c : Char) : String :=
  if c = Char.ofNat 34 then String.mk [Char.ofNat 92, Char.ofNat 34]
  else if c = Char.ofNat 92 then String.mk [Char.ofNat 92, Char.ofNat 92]
  else if c = Char.ofNat 10 then String.mk [Char.ofNat 92, Char.ofNat 110]
  else if c = Char.ofNat 9 then String.mk [Char.ofNat 92, Char.ofNat 116]
  else if c = Char.ofNat 13 then String.mk [Char.ofNat 92, Char.ofNat 114]
  else if c.toNat < 32 ∨ c.toNat > 126 then
    String.mk [Char.ofNat 92, Char.ofNat 117] ++ hex4 (c.toNat % 65536)
  else String.singleton c

/-- `json.dumps` of a string (quoted, escaped). -/
def jsonDumpsStr (s : String) : String :=
  String.singleton (Char.ofNat 34)
    ++ String.join (s.data.map jsonEscapeChar)
    ++ String.singleton (Char.ofNat 34)

mutual

/-- Python `json.dumps(v)` with default separators (", " and ": ") and
`ensure_ascii=True`, for JSON-shaped values (always serializable). -/
def jsonDumps : Json → String
  | .null => "null"
  | .bool true => "true"
  | .bool false => "false"
  | .int n => toString n
  | .str s => jsonDumpsStr s
  | .arr l => "[" ++ jsonDumpsList l ++ "]"
  | .obj m => "\x7b" ++ jsonDumpsObj m ++ "\x7d"

def jsonDumpsList : List Json → String
  | [] => ""
  | [x] => jsonDumps x
  | x :: xs => jsonDumps x ++ ", " ++ jsonDumpsList xs

def jsonDumpsObj : List (String × Json) → String
  | [] => ""
  | [(k, v)] => jsonDumpsStr k ++ ": " ++ jsonDumps v
  | (k, v) :: xs => jsonDumpsStr k ++ ": " ++ jsonDumps v ++ ", " ++ jsonDumpsObj xs

end

/-- A value stored in a download-response mapping: JSON-shaped, or a raw
byte buffer (which `json.dumps` cannot serialize). -/
inductive PyVal where
  | js (j : Json) : PyVal
  | bytes (b : List Nat) : PyVal

/-- The JSON-shaped content of a mapping value, `none` for a byte buffer. -/
def pyValJson : PyVal → Option Json
  | .js j => some j
  | .bytes _ => none

/-- `m.get(k)` on a download-response mapping. -/
def pvGet (m : List (String × PyVal)) (k : String) : Option PyVal :=
  (m.find? (fun kv => kv.1 == k)).map (fun kv => kv.2)

/-- `json.dumps(resp)` for a download-response mapping: raises (`none`)
when some value is a raw byte buffer. -/
def dumpsPyDict (m : List (String × PyVal)) : Option String :=
  (m.mapM (fun kv => (pyValJson kv.2).map (fun j => (kv.1, j)))).map
    (fun l => jsonDumps (Json.obj l))

/-- A response returned by one of the download call candidates. -/
inductive DResp where
  | bytes (b : List Nat) : DResp
  | dict (m : List (String × PyVal)) : DResp
  | readable (b : List Nat) : DResp
  | plain (j : Option Json) : DResp

/-- Python truthiness of a download response (`if resp:`): a stream object
and a non-serializable plain object are truthy; `plain (some j)` is a plain
Python value with `j`'s truthiness (in particular `plain (some .null)` is
the `None` the no-op fallback returns). -/
def respTruthy : DResp → Bool
  | .bytes b => !b.isEmpty
  | .dict m => !m.isEmpty
  | .readable _ => true
  | .plain (some j) => jsonTruthy j
  | .plain none => true

/-- `base64.b64decode(resp["data"])` for a mapping value: a string is
ASCII-encoded then decoded, a byte buffer is decoded directly, any other
value raises `TypeError` inside the decoder (`none`). -/
def b64decodeVal : PyVal → Option (List Nat)
  | .js (.str s) => b64decodeStr s
  | .bytes b => b64decodeBytes b
  | .js _ => none

/-- `s.encode()` for `json.dumps` output (ASCII by `ensure_ascii`). -/
def strBytes (s : String) : List Nat :=
  s.data.map Char.toNat

/-- The response-normalization block of `download_attachment` (lines
292–312): bytes pass through; a mapping with a `data` field is
base64-decoded, the whole mapping being re-serialized if decoding raises —
and that `json.dumps` call sits inside the `except` handler with no guard
of its own, so its `TypeError` on a byte-buffer value propagates; a `file`
byte buffer passes through; other mappings are serialized (same caveat); a
readable is read; anything else is best-effort serialized, an empty buffer
if even that raises. -/
def extract_bytes : DResp → Except PyErr (List Nat)
  | .bytes b => .ok b
  | .dict m =>
    match pvGet m "data" with
    | some dv =>
      match b64decodeVal dv with
      | some b => .ok b
      | none =>
        match dumpsPyDict m with
        | some s => .ok (strBytes s)
        | none => .error (.typeError "Object of type bytes is not JSON serializable")
    | none =>
      match pvGet m "file" with
      | some (.bytes b) => .ok b
      | _ =>
        match dumpsPyDict m with
        | some s => .ok (strBytes s)
        | none => .error (.typeError "Object of type bytes is not JSON serializable")
  | .readable b => .ok b
  | .plain (some j) => .ok (strBytes (jsonDumps j))
  | .plain none => .ok []

/-- The download-capable client: the `hasattr` probes and the outcome of
each download call shape of lines 270–279. -/
structure DownloadClient where
  hasAttachmentCollection : Bool
  dlCollKw : Except PyErr DResp
  dlCollPos : Except PyErr DResp
  hasAttachment : Bool
  dlAttKw : Except PyErr DResp
  dlAttPos : Except PyErr DResp
  hasDownload : Bool
  dlGeneric : Except PyErr DResp

/-- The ordered download candidate list (lines 270–279); the final generic
entry falls back to a no-op lambda returning `None` when the client has no
`download` attribute. -/
def downloadCallers (c : DownloadClient) : List (Except PyErr DResp) :=
  (if c.hasAttachmentCollection then [c.dlCollKw, c.dlCollPos] else [])
  ++ (if c.hasAttachment then [c.dlAttKw, c.dlAttPos] else [])
  ++ [if c.hasDownload then c.dlGeneric else .ok (DResp.plain (some Json.null))]

/-- The probing loop of lines 281–290: first candidate that returns a
truthy response wins; raising candidates record the last error; if no
truthy response remains at the end, `RuntimeError` is raised. -/
def probeDownload : List (Except PyErr DResp) → Option PyErr → Except PyErr DResp
  | [], last =>
    .error (.backendError ("No download method returned data. Last error: " ++ optErrStr last))
  | o :: rest, last =>
    match o with
    | .ok r => if respTruthy r then .ok r else probeDownload rest last
    | .error e => probeDownload rest (some e)

/-- `download_attachment(...)` (lines 256–318): probe for a response,
normalize it to bytes, write them to the destination (modelled as returning
the destination path with the bytes written there). -/
def download_attachment (c : DownloadClient) (destPath : String) :
    Except PyErr (String × List Nat) :=
  match probeDownload (downloadCallers c) none with
  | .error e => .error e
  | .ok resp =>
    match extract_bytes resp with
    | .error e => .error e
    | .ok data => .ok (destPath, data)

/-! ## Auxiliary definitions used by the statements below -/

/-- Concatenation of the items of a list of pages, in page order with
within-page order preserved. -/
def allPageItems : List PPage → List Json
  | [] => []
  | q :: rest => pageItems q ++ allPageItems rest

/-- Whether a value is a Python mapping. -/
def isObjJson : Json → Bool
  | .obj _ => true
  | _ => false

/-- Whether a result is the adapter's `ValueError` (ValidationError). -/
def isValidationError (r : Except PyErr Json) : Bool :=
  match r with
  | .error (.validationError _) => true
  | _ => false

/-- The case-insensitive priority-name test of line 181:
`str(p.get("name", "")).lower() == str(priority_name).lower()`. -/
def nameMatches (nm : String) (p : Json) : Bool :=
  match p with
  | .obj m => strLower (pyStr (objGetD m "name" (Json.str ""))) == strLower nm
  | _ => false

/-- `p.get("id")` of a matched priority record (Python `None` when the
field is absent). -/
def jsonIdOf (p : Json) : Json :=
  match p with
  | .obj m => objGetD m "id" Json.null
  | _ => Json.null

/-! ## Concrete fixtures for the witnesses and counterexamples -/

/-- A backend on which every call raises and every `hasattr` probe
succeeds. -/
def downBackend : Client where
  hasTicketArticle := true
  hasTicket := true
  hasAttachmentEndpoint := true
  ticketFind := fun _ => .error (.other "backend down")
  articleAll := fun _ => .error (.other "backend down")
  ticketUpdateKw := fun _ _ => .error (.other "backend down")
  ticketUpdatePos := fun _ _ => .error (.other "backend down")
  priorityAll := .error (.other "backend down")
  articleFindScoped := fun _ _ => .error (.other "backend down")
  articleFindById := fun _ => .error (.other "backend down")
  attachmentAllKw := fun _ _ => .error (.other "backend down")
  attachmentAllPos := fun _ _ => .error (.other "backend down")
  articleCreateKwParams := fun _ => .error (.other "backend down")
  articleCreatePosDict := fun _ => .error (.other "backend down")
  articleCreateTidDict := fun _ _ => .error (.other "backend down")
  articleCreateKwExpanded := fun _ => .error (.other "backend down")

/-- A single iterable page (no further pages) holding the given items. -/
def onePage (l : List Json) : PageSeq :=
  { first := some { content := .multi l, hasNext := false }, rest := [] }

/-- Fixture for the detail view: the ticket fetch raises, the article
fetch-all succeeds with one article of the requested ticket and one of
another ticket, and attachment discovery finds nothing. -/
def detailFixture : Client :=
  { downBackend with
      ticketFind := fun _ => .error (.other "boom")
      articleAll := fun k =>
        if k = 0 then
          .ok (onePage
            [ Json.obj [("id", Json.int 1), ("ticket_id", Json.int 5)]
            , Json.obj [("id", Json.int 2), ("ticket_id", Json.int 6)] ])
        else .error (.other "backend down") }

/-- Fixture for the message probing: the first two create shapes raise
signature mismatches, the third succeeds with a truthy article. -/
def messageFixture : Client :=
  { downBackend with
      articleCreateKwParams := fun _ => .error (.typeError "unexpected keyword argument params")
      articleCreatePosDict := fun _ => .error (.typeError "takes 1 positional argument")
      articleCreateTidDict := fun _ _ => .ok (Json.obj [("id", Json.int 42)]) }

/-- Fixture for embedded-attachment precedence: the scoped article fetch
returns an article with an embedded attachment list while the dedicated
listing endpoint would return a different, non-empty list. -/
def embeddedFixture : Client :=
  { downBackend with
      articleFindScoped := fun _ _ =>
        .ok (Json.obj
          [ ("id", Json.int 7)
          , ("attachments", Json.arr [Json.obj [("id", Json.int 1), ("filename", Json.str "a.png")]]) ])
      attachmentAllKw := fun _ _ =>
        .ok (onePage [Json.obj [("id", Json.int 99), ("filename", Json.str "different.txt")]]) }

/-- Fixture for priority-name resolution: the priority listing contains
`{id: 3, name: "urgent"}` and updates succeed. -/
def priorityFixture : Client :=
  { downBackend with
      priorityAll := .ok (onePage
        [ Json.obj [("id", Json.int 1), ("name", Json.str "low")]
        , Json.obj [("id", Json.int 3), ("name", Json.str "urgent")] ])
      ticketUpdateKw := fun _ _ => .ok (Json.obj [("updated", Json.bool true)]) }

/-- Fixture for state updates: the keyword update succeeds. -/
def stateFixture : Client :=
  { downBackend with
      ticketUpdateKw := fun _ _ => .ok (Json.obj [("updated", Json.bool true)]) }

/-- Environment with `zammad_url` set to the empty string and the
credentials unset. -/
def emptyUrlEnv : String → Option String :=
  fun k => if k = "zammad_url" then some "" else none

/-- Environment with a trailing-slash base URL and no credentials. -/
def slashUrlEnv : String → Option String :=
  fun k => if k = "zammad_url" then some "https://helpdesk.example//" else none

/-- The download response `{"data": "not-base64!!", "file": b"x"}`: the
`data` field fails base64 decoding and the `file` value is a raw byte
buffer, so `json.dumps` of the whole mapping raises. -/
def badDictResp : List (String × PyVal) :=
  [("data", .js (Json.str "not-base64!!")), ("file", .bytes [120])]

/-- A download client whose only available method is a generic `download`
returning `badDictResp`. -/
def badDownloadFixture : DownloadClient where
  hasAttachmentCollection := false
  dlCollKw := .error (.other "unused")
  dlCollPos := .error (.other "unused")
  hasAttachment := false
  dlAttKw := .error (.other "unused")
  dlAttPos := .error (.other "unused")
  hasDownload := true
  dlGeneric := .ok (.dict badDictResp)

/-! ## Helper lemmas -/

theorem collectAfter_all (ps : List PPage) : ∀ p : PPage, p.hasNext = true →
    (∀ q ∈ ps, pageTruthy q = true ∧ q.hasNext = true) →
    collectAfter p ps = allPageItems ps ∧ nextFetchesAfter p ps = ps.length + 1 := by
  induction ps with
  | nil =>
    intro p hp _
    constructor
    · simp [collectAfter, hp, allPageItems]
    · simp [nextFetchesAfter, hp]
  | cons q ps' ih =>
    intro p hp hq
    obtain ⟨hqt, hqn⟩ := hq q (List.mem_cons_self q ps')
    obtain ⟨ih1, ih2⟩ := ih q hqn (fun r hr => hq r (List.mem_cons_of_mem q hr))
    constructor
    · simp [collectAfter, hp, hqt, allPageItems, ih1]
    · simp [nextFetchesAfter, hp, hqt, ih2]
      omega

theorem probeCreate_first_truthy (pre : List (Except PyErr Json)) :
    ∀ (post : List (Except PyErr Json)) (r : Json) (last : Option PyErr),
    (∀ o ∈ pre, attemptFails o = true) → jsonTruthy r = true →
    probeCreate (pre ++ .ok r :: post) last = (.ok r, pre.length + 1) := by
  induction pre with
  | nil =>
    intro post r last _ hr
    simp [probeCreate, hr]
  | cons o pre' ih =>
    intro post r last hfail hr
    have ho := hfail o (List.mem_cons_self o pre')
    have htail : ∀ x ∈ pre', attemptFails x = true :=
      fun x hx => hfail x (List.mem_cons_of_mem o hx)
    cases o with
    | ok v =>
      have hv : jsonTruthy v = false := by simpa [attemptFails] using ho
      simp [probeCreate, hv, ih post r last htail hr]
    | error e =>
      simp [probeCreate, ih post r (some e) htail hr]

theorem probeCreate_all_fail (l : List (Except PyErr Json)) :
    ∀ last, (∀ o ∈ l, attemptFails o = true) →
    probeCreate l last
      = (.error (.backendError ("Could not create ticket article. Last error: "
          ++ optErrStr (lastErrorFrom l last))), l.length) := by
  induction l with
  | nil =>
    intro last _
    simp [probeCreate, lastErrorFrom]
  | cons o rest ih =>
    intro last hfail
    have ho := hfail o (List.mem_cons_self o rest)
    have htail : ∀ x ∈ rest, attemptFails x = true :=
      fun x hx => hfail x (List.mem_cons_of_mem o hx)
    cases o with
    | ok v =>
      have hv : jsonTruthy v = false := by simpa [attemptFails] using ho
      simp [probeCreate, hv, lastErrorFrom, ih last htail]
    | error e =>
      simp [probeCreate, lastErrorFrom, ih (some e) htail]

theorem resolveLoop_find (nm : String) : ∀ (l : List Json),
    (∀ q ∈ l, isObjJson q = true) →
    resolveLoop l nm
      = .ok (match l.find? (nameMatches nm) with
             | some p => jsonIdOf p
             | none => Json.null) := by
  intro l
  induction l with
  | nil => intro _; simp [resolveLoop]
  | cons p rest ih =>
    intro h
    have hp := h p (List.mem_cons_self p rest)
    have htail : ∀ q ∈ rest, isObjJson q = true :=
      fun q hq => h q (List.mem_cons_of_mem p hq)
    cases p with
    | obj m =>
      by_cases hb : (strLower (pyStr (objGetD m "name" (Json.str ""))) == strLower nm) = true
      · have hmatch : nameMatches nm (Json.obj m) = true := by simpa [nameMatches] using hb
        simp [resolveLoop, hb, List.find?_cons_of_pos _ hmatch, jsonIdOf]
      · have hb' : (strLower (pyStr (objGetD m "name" (Json.str ""))) == strLower nm) = false :=
          Bool.eq_false_iff.mpr hb
        have hmatch : nameMatches nm (Json.obj m) = false := by simpa [nameMatches] using hb'
        simp [resolveLoop, hb', List.find?_cons, hmatch, ih htail]
    | null => simp [isObjJson] at hp
    | bool b => simp [isObjJson] at hp
    | int n => simp [isObjJson] at hp
    | str s => simp [isObjJson] at hp
    | arr a => simp [isObjJson] at hp

theorem laa_isOk (c : Client) (tid : Int) (aid : Json) :
    ∃ v, (list_article_attachments c tid aid).1 = .ok v := by
  unfold list_article_attachments
  rcases h1 : discoverEmbedded c tid aid with ⟨o1, t1⟩
  cases o1 with
  | some v => exact ⟨v, by simp [h1]⟩
  | none =>
    rcases h2 : discoverEndpoint c tid aid with ⟨o2, t2⟩
    cases o2 with
    | some v => exact ⟨v, by simp [h1, h2]⟩
    | none =>
      rcases h3 : discoverLegacy c aid with ⟨o3, t3⟩
      cases o3 with
      | some v => exact ⟨v, by simp [h1, h2, h3]⟩
      | none => exact ⟨Json.arr [], by simp [h1, h2, h3]⟩

theorem ticket_update_events (c : Client) (tid : Int) (params : Json) :
    ∀ ev ∈ (ticket_update c tid params).2,
      ev = CallEvent.ticketUpdateKw tid params ∨ ev = CallEvent.ticketUpdatePos tid params := by
  intro ev hev
  unfold ticket_update at hev
  cases h : c.ticketUpdateKw tid params with
  | ok r =>
    rw [h] at hev
    simp at hev
    exact Or.inl hev
  | error e =>
    cases e <;> rw [h] at hev <;> simp at hev <;> tauto

theorem ticket_update_not_validation (c : Client) (tid : Int) (params : Json)
    (hkw : ∀ m, c.ticketUpdateKw tid params ≠ .error (.validationError m))
    (hpos : ∀ m, c.ticketUpdatePos tid params ≠ .error (.validationError m)) :
    isValidationError (ticket_update c tid params).1 = false := by
  unfold ticket_update
  cases h : c.ticketUpdateKw tid params with
  | ok r => simp [isValidationError]
  | error e =>
    cases e with
    | typeError m =>
      cases h2 : c.ticketUpdatePos tid params with
      | ok r2 => simp [h2, isValidationError]
      | error e2 =>
        cases e2 with
        | validationError m2 => exact absurd h2 (hpos m2)
        | typeError m2 => simp [h2, isValidationError]
        | configError m2 => simp [h2, isValidationError]
        | backendError m2 => simp [h2, isValidationError]
        | other m2 => simp [h2, isValidationError]
    | validationError m => exact absurd h (hkw m)
    | configError m => simp [isValidationError]
    | backendError m => simp [isValidationError]
    | other m => simp [isValidationError]

theorem mem_mapUpsert (m : List (Json × Json)) (k v : Json) :
    ∀ kv ∈ mapUpsert m k v, kv ∈ m ∨ kv = (k, v) := by
  intro kv hkv
  unfold mapUpsert at hkv
  by_cases hf : (m.find? (fun kv => Json.beq kv.1 k)).isSome = true
  · simp only [hf, if_true, List.mem_map] at hkv
    obtain ⟨x, hx, hmap⟩ := hkv
    by_cases hb : Json.beq x.1 k = true
    · right
      rw [← hmap]
      simp [hb]
    · left
      rw [← hmap]
      simp [hb]
      exact hx
  · simp only [hf, if_false, Bool.false_eq_true, List.mem_append, List.mem_singleton] at hkv
    exact hkv

theorem detailAttachStep_entries (c : Client) (tid : Int) : ∀ (arts : List Json)
    (acc : List (Json × Json)),
    (∀ kv ∈ acc, (list_article_attachments c tid kv.1).1 = .ok kv.2) →
    ∀ kv ∈ arts.foldl (detailAttachStep c tid) acc,
      (list_article_attachments c tid kv.1).1 = .ok kv.2 := by
  intro arts
  induction arts with
  | nil => intro acc hacc kv hkv; exact hacc kv hkv
  | cons art rest ih =>
    intro acc hacc kv hkv
    rw [List.foldl_cons] at hkv
    refine ih _ ?_ kv hkv
    intro kv' hkv'
    unfold detailAttachStep at hkv'
    rcases mem_mapUpsert _ _ _ kv' hkv' with h | h
    · exact hacc kv' h
    · obtain ⟨v, hv⟩ := laa_isOk c tid (articleId art)
      rw [h]
      simp [hv]

/-! ## The claims -/

/-- C3: for every paginated input of N items spread over P pages — any mix
of single-item (non-iterable) and multi-item (iterable) pages, each
exposing the next-page capability, the chain eventually delivering a falsy
result — `_collect_pages` returns exactly the N items in page order with
within-page order preserved, and the collection observes P+1 page fetches
(the caller's initial fetch plus one `next_page()` call per remaining page
plus the final falsy fetch). -/
theorem claim_C3 (p : PPage) (ps : List PPage)
    (htruthy : ∀ q ∈ p :: ps, pageTruthy q = true)
    (hnext : ∀ q ∈ p :: ps, q.hasNext = true) :
    collect_pages ⟨some p, ps⟩ = allPageItems (p :: ps)
    ∧ pageFetches ⟨some p, ps⟩ = (p :: ps).length + 1 := by
  have hp := htruthy p (List.mem_cons_self p ps)
  have hpn := hnext p (List.mem_cons_self p ps)
  have h := collectAfter_all ps p hpn
    (fun q hq => ⟨htruthy q (List.mem_cons_of_mem p hq), hnext q (List.mem_cons_of_mem p hq)⟩)
  constructor
  · simp [collect_pages, hp, h.1, allPageItems]
  · simp [pageFetches, hp, h.2]
    omega

/-- Witness for C3: two multi-item pages around a single-item page — four
items collected in order over three pages, four page fetches. -/
theorem claim_C3_witness :
    collect_pages ⟨some ⟨.multi [Json.int 1, Json.int 2], true⟩,
        [⟨.single (Json.int 7), true⟩, ⟨.multi [Json.int 3], true⟩]⟩
      = [Json.int 1, Json.int 2, Json.int 7, Json.int 3]
    ∧ pageFetches ⟨some ⟨.multi [Json.int 1, Json.int 2], true⟩,
        [⟨.single (Json.int 7), true⟩, ⟨.multi [Json.int 3], true⟩]⟩ = 4 := by
  have h := claim_C3 ⟨.multi [Json.int 1, Json.int 2], true⟩
    [⟨.single (Json.int 7), true⟩, ⟨.multi [Json.int 3], true⟩]
    (by decide) (by decide)
  exact ⟨h.1.trans rfl, h.2.trans rfl⟩

/-- C2: with the article-creation endpoint present, `send_message_to_ticket`
builds exactly the six documented call shapes in order (keyword-params
object, positional dict, ticket-id-plus-dict, expanded keyword arguments,
nested-article ticket update by keyword, nested-article ticket update
positionally); the first shape that runs without error and returns a truthy
response is returned after exactly its position's number of attempts; and
when every shape fails the call fails with the `RuntimeError` (BackendError)
carrying the last underlying error, after all six attempts. -/
theorem claim_C2 (c : Client) (tid : Int) (message : String) (subject : Option String)
    (authorId : Option Int) (internal : Bool) (articleType : Option String)
    (additional : Option (List (String × Json)))
    (h : c.hasTicketArticle = true) :
    msgCallers c tid (msgParams tid message subject authorId internal articleType additional)
      = [c.articleCreateKwParams (msgParams tid message subject authorId internal articleType additional),
         c.articleCreatePosDict (msgParams tid message subject authorId internal articleType additional),
         c.articleCreateTidDict tid (msgParams tid message subject authorId internal articleType additional),
         c.articleCreateKwExpanded (msgParams tid message subject authorId internal articleType additional),
         (if c.hasTicket then
            c.ticketUpdateKw tid (Json.obj [("article", msgParams tid message subject authorId internal articleType additional)])
          else .ok Json.null),
         (if c.hasTicket then
            c.ticketUpdatePos tid (Json.obj [("article", msgParams tid message subject authorId internal articleType additional)])
          else .ok Json.null)]
    ∧ (∀ pre post r,
        msgCallers c tid (msgParams tid message subject authorId internal articleType additional)
          = pre ++ .ok r :: post →
        (∀ o ∈ pre, attemptFails o = true) → jsonTruthy r = true →
        send_message_to_ticket c tid message subject authorId internal articleType additional
          = (.ok r, pre.length + 1))
    ∧ ((∀ o ∈ msgCallers c tid (msgParams tid message subject authorId internal articleType additional),
          attemptFails o = true) →
        send_message_to_ticket c tid message subject authorId internal articleType additional
          = (.error (.backendError ("Could not create ticket article. Last error: "
              ++ optErrStr (lastErrorFrom
                   (msgCallers c tid (msgParams tid message subject authorId internal articleType additional))
                   none))), 6)) := by
  refine ⟨by simp [msgCallers, h], ?_, ?_⟩
  · intro pre post r hsplit hfail hr
    unfold send_message_to_ticket
    rw [hsplit]
    exact probeCreate_first_truthy pre post r none hfail hr
  · intro hfail
    unfold send_message_to_ticket
    have hlen : (msgCallers c tid (msgParams tid message subject authorId internal articleType additional)).length = 6 := by
      simp [msgCallers, h]
    rw [probeCreate_all_fail _ none hfail, hlen]

/-- Witness for C2: a double failing the first two shapes with signature
mismatches and succeeding on the third observes exactly three attempts and
returns the third shape's response. -/
theorem claim_C2_witness :
    send_message_to_ticket messageFixture 5 "hi" none none false none none
      = (.ok (Json.obj [("id", Json.int 42)]), 3) := by
  have h := (claim_C2 messageFixture 5 "hi" none none false none none rfl).2.1
    [.error (.typeError "unexpected keyword argument params"),
     .error (.typeError "takes 1 positional argument")]
    [.error (.other "backend down"),
     .error (.other "backend down"),
     .error (.other "backend down")]
    (Json.obj [("id", Json.int 42)])
    rfl
    (by intro o ho
        simp [List.mem_cons] at ho
        rcases ho with h1 | h1 <;> rw [h1] <;> rfl)
    rfl
  exact h

/-- C8: `set_ticket_state` fails with the `ValueError` (ValidationError) if
and only if neither `state` nor `state_id` is given (assuming the backend's
update oracles do not themselves raise that very exception class); when
both are given, both keys are included in the parameters of every update
call sent to the backend. -/
theorem claim_C8 (c : Client) (tid : Int) (state : Option String) (stateId : Option Int)
    (hkw : ∀ p m, c.ticketUpdateKw tid p ≠ .error (.validationError m))
    (hpos : ∀ p m, c.ticketUpdatePos tid p ≠ .error (.validationError m)) :
    (isValidationError (set_ticket_state c tid state stateId).1 = true
       ↔ (state = none ∧ stateId = none))
    ∧ (∀ s n, state = some s → stateId = some n →
        set_ticket_state c tid state stateId
          = ticket_update c tid (Json.obj [("state_id", Json.int n), ("state", Json.str s)])
        ∧ ∀ ev ∈ (set_ticket_state c tid state stateId).2,
            ev = CallEvent.ticketUpdateKw tid
                   (Json.obj [("state_id", Json.int n), ("state", Json.str s)])
            ∨ ev = CallEvent.ticketUpdatePos tid
                   (Json.obj [("state_id", Json.int n), ("state", Json.str s)])) := by
  constructor
  · cases state with
    | none =>
      cases stateId with
      | none => simp [set_ticket_state, isValidationError]
      | some n =>
        simp only [set_ticket_state]
        simp [ticket_update_not_validation c tid (Json.obj [("state_id", Json.int n)])
          (hkw _) (hpos _)]
    | some s =>
      cases stateId with
      | none =>
        simp only [set_ticket_state]
        simp [ticket_update_not_validation c tid (Json.obj [("state", Json.str s)])
          (hkw _) (hpos _)]
      | some n =>
        simp only [set_ticket_state]
        simp [ticket_update_not_validation c tid
          (Json.obj [("state_id", Json.int n), ("state", Json.str s)]) (hkw _) (hpos _)]
  · intro s n hs hn
    subst hs
    subst hn
    exact ⟨rfl, ticket_update_events c tid _⟩

/-- Witness for C8: with neither discriminator the call fails with the
validation error; with both, the update is issued with both keys present
and no validation error arises. -/
theorem claim_C8_witness :
    isValidationError (set_ticket_state stateFixture 4 none none).1 = true
    ∧ isValidationError (set_ticket_state stateFixture 4 (some "closed") (some 2)).1 = false
    ∧ set_ticket_state stateFixture 4 (some "closed") (some 2)
        = ticket_update stateFixture 4
            (Json.obj [("state_id", Json.int 2), ("state", Json.str "closed")]) := by
  have hkw : ∀ p m, stateFixture.ticketUpdateKw 4 p ≠ .error (.validationError m) := by
    intro p m hc
    exact Except.noConfusion hc
  have hpos : ∀ p m, stateFixture.ticketUpdatePos 4 p ≠ .error (.validationError m) := by
    intro p m hc
    injection hc with hc2
    exact PyErr.noConfusion hc2
  have h1 := claim_C8 stateFixture 4 none none hkw hpos
  have h2 := claim_C8 stateFixture 4 (some "closed") (some 2) hkw hpos
  refine ⟨h1.1.mpr ⟨rfl, rfl⟩, ?_, (h2.2 "closed" 2 rfl rfl).1⟩
  cases hiv : isValidationError (set_ticket_state stateFixture 4 (some "closed") (some 2)).1 with
  | false => rfl
  | true => exact absurd (h2.1.mp hiv).1 (by simp)

/-- C7: when `set_ticket_priority` is called with only a name, the name is
resolved by listing all priorities and matching case-insensitively; a
failing listing, or no case-insensitive match, yields the `ValueError`
("could not resolve priority") — never the underlying listing exception —
while a match with a non-`None` id leads to an update with the resolved id,
the trace showing the listing followed only by update calls. -/
theorem claim_C7 (c : Client) (tid : Int) (nm : String) :
    (∀ e, c.priorityAll = .error e →
       set_ticket_priority c tid none (some nm)
         = (.error (.validationError
             "Could not resolve priority id; provide a valid priority_id or priority_name"),
            [.priorityAll]))
    ∧ (∀ ps, c.priorityAll = .ok ps →
        (∀ q ∈ collect_pages ps, isObjJson q = true) →
        (((collect_pages ps).find? (nameMatches nm) = none →
           set_ticket_priority c tid none (some nm)
             = (.error (.validationError
                 "Could not resolve priority id; provide a valid priority_id or priority_name"),
                [.priorityAll]))
         ∧ (∀ p, (collect_pages ps).find? (nameMatches nm) = some p →
             jsonIdOf p ≠ Json.null →
             set_ticket_priority c tid none (some nm)
               = ((ticket_update c tid (Json.obj [("priority_id", jsonIdOf p)])).1,
                  .priorityAll :: (ticket_update c tid (Json.obj [("priority_id", jsonIdOf p)])).2)))) := by
  constructor
  · intro e he
    simp [set_ticket_priority, resolve_priority_id, he]
  · intro ps hps hobj
    have hloop := resolveLoop_find nm (collect_pages ps) hobj
    constructor
    · intro hnone
      rw [hnone] at hloop
      simp [set_ticket_priority, resolve_priority_id, hps, hloop]
    · intro p hfound hid
      rw [hfound] at hloop
      have hres : resolve_priority_id c nm = jsonIdOf p := by
        simp [resolve_priority_id, hps, hloop]
      cases hw : jsonIdOf p with
      | null => exact absurd hw hid
      | bool b =>
        simp [set_ticket_priority, hres, hw]
      | int n =>
        simp [set_ticket_priority, hres, hw]
      | str s =>
        simp [set_ticket_priority, hres, hw]
      | arr l =>
        simp [set_ticket_priority, hres, hw]
      | obj m =>
        simp [set_ticket_priority, hres, hw]

/-- Witness for C7: the name "Urgent" resolves against the listed priority
`{id: 3, name: "urgent"}` (case-insensitive) and the update is sent with
`priority_id = 3`; an unknown name yields the validation failure even
though the listing succeeded. -/
theorem claim_C7_witness :
    set_ticket_priority priorityFixture 9 none (some "Urgent")
      = (.ok (Json.obj [("updated", Json.bool true)]),
         [.priorityAll, .ticketUpdateKw 9 (Json.obj [("priority_id", Json.int 3)])])
    ∧ (set_ticket_priority priorityFixture 9 none (some "fancy")).1
      = .error (.validationError
          "Could not resolve priority id; provide a valid priority_id or priority_name") := by
  have h1 := ((claim_C7 priorityFixture 9 "Urgent").2 _ rfl (by decide)).2
    (Json.obj [("id", Json.int 3), ("name", Json.str "urgent")]) rfl
    (fun hc => Json.noConfusion hc)
  have h2 := ((claim_C7 priorityFixture 9 "fancy").2 _ rfl (by decide)).1 rfl
  exact ⟨h1.trans rfl, by rw [h2]⟩

/-- C10: whenever `priority_id` is supplied, `set_ticket_priority` ignores
`priority_name`, never invokes the priority-listing endpoint, and sends the
backend update with parameters consisting exactly of the supplied
`priority_id`. -/
theorem claim_C10 (c : Client) (tid : Int) (pid : Int) (nm : Option String) :
    set_ticket_priority c tid (some pid) nm = set_ticket_priority c tid (some pid) none
    ∧ set_ticket_priority c tid (some pid) nm
        = ticket_update c tid (Json.obj [("priority_id", Json.int pid)])
    ∧ (∀ ev ∈ (set_ticket_priority c tid (some pid) nm).2,
        isPriorityAllEvent ev = false)
    ∧ (∀ ev ∈ (set_ticket_priority c tid (some pid) nm).2,
        ev = CallEvent.ticketUpdateKw tid (Json.obj [("priority_id", Json.int pid)])
        ∨ ev = CallEvent.ticketUpdatePos tid (Json.obj [("priority_id", Json.int pid)])) := by
  have heq : set_ticket_priority c tid (some pid) nm
      = ticket_update c tid (Json.obj [("priority_id", Json.int pid)]) := by
    cases nm with
    | none => rfl
    | some s => rfl
  refine ⟨?_, heq, ?_, ?_⟩
  · cases nm with
    | none => rfl
    | some s => rfl
  · intro ev hev
    rw [heq] at hev
    rcases ticket_update_events c tid _ ev hev with h | h <;> rw [h] <;> rfl
  · intro ev hev
    rw [heq] at hev
    exact ticket_update_events c tid _ ev hev

/-- Witness for C10: with `priority_id = 3` and a name also supplied, the
update is sent directly with exactly that id and the trace contains no
priority-listing call. -/
theorem claim_C10_witness :
    set_ticket_priority priorityFixture 9 (some 3) (some "whatever")
      = ticket_update priorityFixture 9 (Json.obj [("priority_id", Json.int 3)])
    ∧ isPriorityAllEvent
        (CallEvent.ticketUpdateKw 9 (Json.obj [("priority_id", Json.int 3)])) = false := by
  have h := claim_C10 priorityFixture 9 3 (some "whatever")
  refine ⟨h.2.1, ?_⟩
  have hmem : CallEvent.ticketUpdateKw 9 (Json.obj [("priority_id", Json.int 3)])
      ∈ (set_ticket_priority priorityFixture 9 (some 3) (some "whatever")).2 := by
    rw [h.2.1]
    exact List.mem_singleton.mpr rfl
  exact h.2.2.1 _ hmem

/-- C4: when the article fetched by ticket+article id is a truthy mapping
carrying a truthy (non-empty) embedded `attachments` value, discovery
returns that value verbatim and its trace is exactly the one scoped article
fetch — the dedicated attachment-listing endpoint and the by-id legacy
fallback are never queried, whatever they would return. -/
theorem claim_C4 (c : Client) (tid : Int) (aid : Json) (m : List (String × Json)) (att : Json)
    (hfind : c.articleFindScoped tid aid = .ok (Json.obj m))
    (htruthy : jsonTruthy (Json.obj m) = true)
    (hatt : objGet m "attachments" = some att)
    (hattTruthy : jsonTruthy att = true) :
    list_article_attachments c tid aid = (.ok att, [.articleFindScoped tid aid])
    ∧ ∀ ev ∈ (list_article_attachments c tid aid).2, isLaterStrategyEvent ev = false := by
  have hemb : discoverEmbedded c tid aid = (some att, [.articleFindScoped tid aid]) := by
    simp [discoverEmbedded, hfind, htruthy, hatt, hattTruthy]
  have hres : list_article_attachments c tid aid = (.ok att, [.articleFindScoped tid aid]) := by
    simp [list_article_attachments, hemb]
  refine ⟨hres, ?_⟩
  intro ev hev
  rw [hres] at hev
  rw [List.mem_singleton.mp hev]
  rfl

/-- Witness for C4: the spec's scenario — article
`{id: 7, attachments: [{id: 1, filename: "a.png"}]}` — returns exactly the
embedded list although the dedicated endpoint would return a different
non-empty list. -/
theorem claim_C4_witness :
    list_article_attachments embeddedFixture 5 (Json.int 7)
      = (.ok (Json.arr [Json.obj [("id", Json.int 1), ("filename", Json.str "a.png")]]),
         [.articleFindScoped 5 (Json.int 7)]) := by
  exact (claim_C4 embeddedFixture 5 (Json.int 7)
    [ ("id", Json.int 7)
    , ("attachments", Json.arr [Json.obj [("id", Json.int 1), ("filename", Json.str "a.png")]]) ]
    (Json.arr [Json.obj [("id", Json.int 1), ("filename", Json.str "a.png")]])
    rfl rfl rfl rfl).1

/-- C5: attachment discovery never raises: whatever the backend oracles do
(including raising on every call), `list_article_attachments` returns an
`.ok` result, and when all three strategies yield nothing it is the empty
sequence. -/
theorem claim_C5 (c : Client) (tid : Int) (aid : Json) :
    (∃ v, (list_article_attachments c tid aid).1 = .ok v)
    ∧ ((discoverEmbedded c tid aid).1 = none → (discoverEndpoint c tid aid).1 = none →
       (discoverLegacy c aid).1 = none →
       (list_article_attachments c tid aid).1 = .ok (Json.arr [])) := by
  refine ⟨laa_isOk c tid aid, ?_⟩
  intro h1 h2 h3
  rcases he1 : discoverEmbedded c tid aid with ⟨o1, t1⟩
  rcases he2 : discoverEndpoint c tid aid with ⟨o2, t2⟩
  rcases he3 : discoverLegacy c aid with ⟨o3, t3⟩
  rw [he1] at h1
  rw [he2] at h2
  rw [he3] at h3
  simp at h1 h2 h3
  subst h1
  subst h2
  subst h3
  simp [list_article_attachments, he1, he2, he3]

/-- Witness for C5: against a backend whose every call raises, discovery
still returns, with the empty sequence. -/
theorem claim_C5_witness :
    (list_article_attachments downBackend 1 (Json.int 2)).1 = .ok (Json.arr []) := by
  exact (claim_C5 downBackend 1 (Json.int 2)).2 rfl rfl rfl

/-- C1: `get_ticket_details` always returns a detail view (its type is
total over every combination of oracle outcomes).  The `ticket` field is
never `None`: on fetch failure it is the `{"id": ..., "error": str(e)}`
placeholder (assuming a successful fetch returns an actual record, not
`None`).  Article fetching degrades: the fetch-all-then-filter result when
it succeeds, else the ticket-scoped fallback, else the empty list.  Every
entry of the attachments map is the (never-raising) discovery result for
its article id, so a failing discovery contributes an empty list for that
article only. -/
theorem claim_C1 (c : Client) (tid : Int) (inc : Bool)
    (hfind : ∀ t, c.ticketFind tid = .ok t → t ≠ Json.null) :
    (get_ticket_details c tid inc).ticket ≠ Json.null
    ∧ (∀ e, c.ticketFind tid = .error e →
        (get_ticket_details c tid inc).ticket
          = Json.obj [("id", Json.int tid), ("error", Json.str (errMsg e))])
    ∧ (∀ l, detailFirstTry c tid = .ok l → (get_ticket_details c tid inc).articles = l)
    ∧ (∀ e l, detailFirstTry c tid = .error e → get_ticket_articles_at c 1 tid = .ok l →
        (get_ticket_details c tid inc).articles = l)
    ∧ (∀ e e', detailFirstTry c tid = .error e → get_ticket_articles_at c 1 tid = .error e' →
        (get_ticket_details c tid inc).articles = [])
    ∧ (inc = true →
        ∀ kv ∈ (get_ticket_details c tid inc).attachments,
          (list_article_attachments c tid kv.1).1 = .ok kv.2) := by
  refine ⟨?_, ?_, ?_, ?_, ?_, ?_⟩
  · cases h : c.ticketFind tid with
    | ok t =>
      have ht := hfind t h
      simpa [get_ticket_details, get_ticket, h] using ht
    | error e =>
      simp [get_ticket_details, get_ticket, h]
  · intro e he
    simp [get_ticket_details, get_ticket, he]
  · intro l hl
    show detailArticles c tid = l
    simp [detailArticles, hl]
  · intro e l he hl
    show detailArticles c tid = l
    simp [detailArticles, he, hl]
  · intro e e' he he'
    show detailArticles c tid = []
    simp [detailArticles, he, he']
  · intro hinc kv hkv
    subst hinc
    have hatt : (get_ticket_details c tid true).attachments
        = (detailArticles c tid).foldl (detailAttachStep c tid) [] := rfl
    rw [hatt] at hkv
    exact detailAttachStep_entries c tid (detailArticles c tid) []
      (fun kv' hkv' => absurd hkv' (List.not_mem_nil kv')) kv hkv

/-- Witness for C1: a backend whose ticket fetch raises and whose articles
arrive via the fetch-all path — the placeholder ticket is returned, the
articles are filtered to the requested ticket, and the article's attachment
entry is the empty discovery result. -/
theorem claim_C1_witness :
    (get_ticket_details detailFixture 5 true).ticket
        = Json.obj [("id", Json.int 5), ("error", Json.str "boom")]
    ∧ (get_ticket_details detailFixture 5 true).articles
        = [Json.obj [("id", Json.int 1), ("ticket_id", Json.int 5)]]
    ∧ (list_article_attachments detailFixture 5 (Json.int 1)).1 = .ok (Json.arr []) := by
  have h := claim_C1 detailFixture 5 true (fun t ht => Except.noConfusion ht)
  refine ⟨h.2.1 (.other "boom") rfl, h.2.2.1 _ rfl, ?_⟩
  exact h.2.2.2.2.2 rfl (Json.int 1, Json.arr []) (List.mem_singleton.mpr rfl)

/-- Counterexample to C6 as stated: for the chosen mapping response
`{"data": "not-base64!!", "file": b"x"}` the base64 decode fails, but the
claimed "JSON-serialized form of the whole mapping is written and no
exception is raised" does not hold — `json.dumps` sits inside the `except`
handler, raises `TypeError` on the byte-buffer value, and that exception
propagates out of `download_attachment`. -/
theorem claim_C6_counterexample :
    b64decodeVal (.js (Json.str "not-base64!!")) = none
    ∧ pvGet badDictResp "data" = some (.js (Json.str "not-base64!!"))
    ∧ download_attachment badDownloadFixture "/tmp/att.bin"
        = .error (.typeError "Object of type bytes is not JSON serializable") := by
  exact ⟨by decide, rfl, rfl⟩

/-- C6 (amended): when the chosen response is a mapping with a `data`
field, the bytes written are its base64-decoding; if decoding fails, the
JSON-serialized form of the whole mapping is written — provided the mapping
is JSON-serializable; when serialization itself fails (a raw byte-buffer
value in the mapping), the `TypeError` propagates instead of being
swallowed.  The bytes `download_attachment` writes are exactly the
normalization of the probed response. -/
theorem claim_C6 (m : List (String × PyVal)) (dv : PyVal)
    (hdata : pvGet m "data" = some dv) :
    (∀ b, b64decodeVal dv = some b → extract_bytes (.dict m) = .ok b)
    ∧ (b64decodeVal dv = none → ∀ s, dumpsPyDict m = some s →
        extract_bytes (.dict m) = .ok (strBytes s))
    ∧ (b64decodeVal dv = none → dumpsPyDict m = none →
        extract_bytes (.dict m)
          = .error (.typeError "Object of type bytes is not JSON serializable"))
    ∧ (∀ (c : DownloadClient) (dest : String),
        probeDownload (downloadCallers c) none = .ok (.dict m) →
        ∀ b, extract_bytes (.dict m) = .ok b →
        download_attachment c dest = .ok (dest, b)) := by
  refine ⟨?_, ?_, ?_, ?_⟩
  · intro b hb
    simp [extract_bytes, hdata, hb]
  · intro hb s hs
    simp [extract_bytes, hdata, hb, hs]
  · intro hb hs
    simp [extract_bytes, hdata, hb, hs]
  · intro c dest hprobe b hb
    simp [download_attachment, hprobe, hb]

/-- Witness for C6 (amended): `{"data": base64("hello")}` normalizes to the
bytes of "hello"; `{"data": "not-base64!!"}` (with no unserializable value)
normalizes to the JSON-serialized mapping. -/
theorem claim_C6_witness :
    extract_bytes (.dict [("data", .js (Json.str "aGVsbG8="))])
      = .ok [104, 101, 108, 108, 111]
    ∧ extract_bytes (.dict [("data", .js (Json.str "not-base64!!"))])
      = .ok (strBytes "\x7b\"data\": \"not-base64!!\"\x7d") := by
  constructor
  · exact (claim_C6 [("data", .js (Json.str "aGVsbG8="))] (.js (Json.str "aGVsbG8=")) rfl).1
      [104, 101, 108, 108, 111] (by decide)
  · exact (claim_C6 [("data", .js (Json.str "not-base64!!"))] (.js (Json.str "not-base64!!"))
      rfl).2.1 (by decide) "\x7b\"data\": \"not-base64!!\"\x7d" (by decide)

/-- Counterexample to C9 as stated: the base URL configuration value being
*absent* is not the exact failure condition — with `zammad_url` present but
set to the empty string (`if not url_base` is truthy for `""` too), the
connection factory still fails with the configuration error. -/
theorem claim_C9_counterexample :
    emptyUrlEnv "zammad_url" = some ""
    ∧ init_zammad_client emptyUrlEnv
        = .error (.configError "Environment variable `zammad_url` is not set") := by
  exact ⟨rfl, rfl⟩

/-- C9 (amended): `init_zammad_client` fails with the configuration error
if and only if the base URL value is absent *or empty*; otherwise it
returns a connection whose URL is the base URL with trailing slashes
stripped and the fixed `/api/v1/` segment appended, and it does not fail
when username or password are absent (they are passed through as-is). -/
theorem claim_C9 (env : String → Option String) :
    ((∃ msg, init_zammad_client env = .error (.configError msg))
       ↔ (env "zammad_url" = none ∨ env "zammad_url" = some ""))
    ∧ (∀ u, env "zammad_url" = some u → u ≠ "" →
        init_zammad_client env
          = .ok { url := rstripSlash u ++ "/api/v1/"
                , username := env "zammad_username"
                , password := env "zammad_password" }) := by
  constructor
  · cases hu : env "zammad_url" with
    | none =>
      simp [init_zammad_client, hu]
    | some u =>
      by_cases hne : u = ""
      · subst hne
        simp [init_zammad_client, hu]
      · simp [init_zammad_client, hu, hne]
  · intro u hu hne
    simp [init_zammad_client, hu, hne]

/-- Witness for C9 (amended): a base URL with trailing slashes and no
credentials yields a connection with the normalized URL and absent
credentials, with no failure. -/
theorem claim_C9_witness :
    init_zammad_client slashUrlEnv
      = .ok { url := "https://helpdesk.example/api/v1/", username := none, password := none } := by
  exact ((claim_C9 slashUrlEnv).2 "https://helpdesk.example//" rfl (by decide)).trans rfl
